import Mathlib

/-!
Verification of the pyropust structured error-handling runtime: the
`Result`/`Option` algebra, the `Error` model, the exception-boundary
adapters (`catch`, `attempt`, `ensure`, `bail`, `exception_to_error`)
and the do-notation short-circuit runner.

The engine itself is a native extension module (`pyropust_native`), whose
source is not part of this tree; the Python package only re-exports its
symbols, and the test suite pins down its observable behaviour.  The
definitions below are therefore a shallow model built from the
specification's description of each operation, kept consistent with the
behaviour the tests in `tests/` observe.  Host exceptions are modelled
explicitly: a caller-supplied host function is `T → PyRes U`, where
`PyRes` is `Except Exc`, so that "the function raised" and "the function
returned" are distinguished outcomes a combinator can propagate or
convert.
-/

namespace Pyropust

/-- Modelled from the spec: a host (Python) exception as observed at an
exception boundary — its type name, its message, and the traceback text
available while it is being handled.  The native engine is not under
`src/`, so the host exception surface is modelled from the spec's
description of exception capture. -/
structure Exc where
  excType : String
  excMsg : String
  excTrace : String
  deriving DecidableEq

/-- Modelled from the spec: coarse error categories; the spec lists
InvalidInput, NotFound, Internal as the representative kinds. -/
inductive ErrorKind where
  | InvalidInput
  | NotFound
  | Internal
  deriving DecidableEq

def kindToString : ErrorKind → String
  | .InvalidInput => "InvalidInput"
  | .NotFound => "NotFound"
  | .Internal => "Internal"

def kindOfString (s : String) : Option ErrorKind :=
  if s = "InvalidInput" then some .InvalidInput
  else if s = "NotFound" then some .NotFound
  else if s = "Internal" then some .Internal
  else none

/-- A path element: field name or index within a nested structure. -/
inductive PathElem where
  | field (name : String)
  | index (i : Int)
  deriving DecidableEq

/-- Modelled from the spec: the value stored in an `Error`'s `cause`
slot.  The type deliberately admits both a string rendering and a live
host-object reference, so that "the library only ever stores the string
rendering" is a provable property of the construction paths rather than
a consequence of the type. -/
inductive CauseVal where
  | str (s : String)
  | liveExc (e : Exc)
  deriving DecidableEq

/-- Modelled from the spec: the immutable `Error` value of the native
engine (kind, namespaced code, message, merge-additive metadata, op,
path, expected/got diagnostics, optional cause). -/
structure Error where
  kind : ErrorKind
  code : String
  message : String
  metadata : List (String × String)
  op : Option String
  path : List PathElem
  expected : Option String
  got : Option String
  cause : Option CauseVal
  deriving DecidableEq

/-- The outcome of a host call: either a returned value or a raised
exception that is unwinding. -/
abbrev PyRes (α : Type) := Except Exc α

/-- Modelled from the spec: `Result` is exactly one of `Ok`/`Err`. -/
inductive Result (T E : Type) where
  | Ok (v : T)
  | Err (e : E)
  deriving DecidableEq

/-- Modelled from the spec: `Option` is exactly one of `Some`/`None_`
(named `Opt` here because `Option` is taken by Lean). -/
inductive Opt (T : Type) where
  | Some (v : T)
  | None_
  deriving DecidableEq

/-- Outcome of an operation that either returns a value or fails
fatally (the abort/panic-equivalent failure of `unwrap`; the host
realises it as a raised `RuntimeError`, but it is not a recoverable
domain outcome and is kept distinct from both `Result.Err` and a host
exception value here). -/
inductive Fatal (α : Type) where
  | value (v : α)
  | fatal (msg : String)
  deriving DecidableEq

/-- The full trace string captured from a handled host exception
(Python's traceback text: header, frames, final exception line). -/
def fmtTraceback (exc : Exc) : String :=
  "Traceback (most recent call last):\n" ++ exc.excTrace
    ++ exc.excType ++ ": " ++ exc.excMsg

/-- The string rendering of a host exception used as a `cause`
(type name and message text). -/
def excCauseStr (exc : Exc) : String :=
  exc.excType ++ ": " ++ exc.excMsg

/-- Modelled from the spec: `exception_to_error` converts a handled
host exception into an `Error`, capturing the exception's type name and
full trace string into metadata under the keys `exception` and
`py_traceback`; the cause stores the exception's string form.  The
native implementation is not under `src/`.  Callers that rely on the
default code pass `"py_exception"` explicitly here. -/
def exception_to_error (exc : Exc) (code : String) : Error :=
  { kind := .Internal
    code := code
    message := exc.excMsg
    metadata := [("exception", exc.excType), ("py_traceback", fmtTraceback exc)]
    op := none
    path := []
    expected := none
    got := none
    cause := some (.str (excCauseStr exc)) }

def codeMarker (c : String) : String := "code=\x27" ++ c ++ "\x27"

def messageMarker (m : String) : String := "message=\x27" ++ m ++ "\x27"

/-- The string rendering of an `Error` used when it becomes another
error's `cause` (the tests observe the `code=\x27...\x27` and
`message=\x27...\x27` markers inside it). -/
def errorRepr (e : Error) : String :=
  "Error(kind=" ++ kindToString e.kind ++ ", " ++ codeMarker e.code
    ++ ", " ++ messageMarker e.message ++ ")"

/-- Modelled from the spec: `Error.new` general constructor; `kind`
defaults to `Internal` when omitted (the spec leaves the default rule
open; `Internal` is its suggested documented default). -/
def Error.new (code message : String) (kind : Option ErrorKind)
    (op : Option String) (path : List PathElem)
    (expected got : Option String)
    (metadata : List (String × String)) : Error :=
  { kind := kind.getD .Internal
    code := code
    message := message
    metadata := metadata
    op := op
    path := path
    expected := expected
    got := got
    cause := none }

/-- Modelled from the spec: `Error.wrap` builds a new `Error` whose
`cause` stringifies the source; a host-exception source additionally
gets the `cause_exception` / `cause_py_traceback` capture keys in
metadata, via the same logic as `exception_to_error`.  (The host-side
rejection of a `None` source with a `TypeError` is outside this model;
the source here is always present.) -/
def Error.wrap (source : Sum Exc Error) (code message : String)
    (metadata : List (String × String)) : Error :=
  match source with
  | .inl exc =>
    { kind := .Internal
      code := code
      message := message
      metadata := ("cause_exception", exc.excType)
        :: ("cause_py_traceback", fmtTraceback exc) :: metadata
      op := none
      path := []
      expected := none
      got := none
      cause := some (.str (errorRepr (exception_to_error exc "py_exception"))) }
  | .inr base =>
    { kind := .Internal
      code := code
      message := message
      metadata := metadata
      op := none
      path := []
      expected := none
      got := none
      cause := some (.str (errorRepr base)) }

/-- Modelled from the spec: `map` transforms `Ok` and passes `Err`
through; it must not catch an exception raised by `f`, so a raising `f`
makes the whole call raise. -/
def Result.map {T U E : Type} (r : Result T E) (f : T → PyRes U) :
    PyRes (Result U E) :=
  match r with
  | .Ok v => (f v).map .Ok
  | .Err e => .ok (.Err e)

/-- Modelled from the spec: monadic bind; `Err` short-circuits; an
exception raised by `f` propagates. -/
def Result.and_then {T U E : Type} (r : Result T E)
    (f : T → PyRes (Result U E)) : PyRes (Result U E) :=
  match r with
  | .Ok v => f v
  | .Err e => .ok (.Err e)

/-- Modelled from the spec: `map_try` wraps any exception raised by `f`
into `Err(Error{code, message, cause=exception})`; it never itself
raises, so its return type is a plain `Result`. -/
def Result.map_try {T U : Type} (r : Result T Error) (f : T → PyRes U)
    (code message : String) : Result U Error :=
  match r with
  | .Ok v =>
    match f v with
    | .ok u => .Ok u
    | .error exc => .Err (Error.wrap (.inl exc) code message [])
  | .Err e => .Err e

/-- Modelled from the spec: bind variant that wraps exceptions raised by
`f` itself into an `Error`; an `Err` returned by `f` passes through
as-is. -/
def Result.and_then_try {T U : Type} (r : Result T Error)
    (f : T → PyRes (Result U Error)) (code message : String) :
    Result U Error :=
  match r with
  | .Ok v =>
    match f v with
    | .ok out => out
    | .error exc => .Err (Error.wrap (.inl exc) code message [])
  | .Err e => .Err e

def Result.is_ok {T E : Type} : Result T E → Bool
  | .Ok _ => true
  | .Err _ => false

def Result.is_err {T E : Type} : Result T E → Bool
  | .Ok _ => false
  | .Err _ => true

/-- Modelled from the spec: `unwrap` returns the value on `Ok` and
fails fatally on `Err`. -/
def Result.unwrap {T E : Type} : Result T E → Fatal T
  | .Ok v => .value v
  | .Err _ => .fatal "called unwrap on an Err value"

/-- Modelled from the spec and the tests: the `unwrap_err` accessor
returns the contained error payload on `Err` and fails fatally on
`Ok`. -/
def Result.unwrap_err {T E : Type} : Result T E → Fatal E
  | .Ok _ => .fatal "called unwrap_err on an Ok value"
  | .Err e => .value e

/-- `listPrefix p s` decides whether the character list `p` is an
initial segment of `s` (the model of the host's startswith test used by
code-namespace prefixing). -/
def listPrefix : List Char → List Char → Bool
  | [], _ => true
  | _ :: _, [] => false
  | a :: as, b :: bs => a == b && listPrefix as bs

def hasPrefix (p s : String) : Bool := listPrefix p.data s.data

/-- Modelled from the spec: namespace-prefixing of an error code —
prefix with `ns.` unless the code already starts with it, which is what
makes the operation idempotent per namespace. -/
def prefixCode (ns c : String) : String :=
  if hasPrefix (ns ++ ".") c then c else ns ++ "." ++ c

/-- Modelled from the spec: `map_err_code` prefixes the error's code
with the namespace, idempotently; no-op on `Ok`. -/
def Result.map_err_code {T : Type} (r : Result T Error) (ns : String) :
    Result T Error :=
  match r with
  | .Ok v => .Ok v
  | .Err e => .Err { e with code := prefixCode ns e.code }

/-- Modelled from the spec: `context` wraps an existing error as
`cause` under a new `Error` with the given code (the host default is
`"context"`, passed explicitly by callers here), message and metadata;
passthrough on `Ok`. -/
def Result.context {T : Type} (r : Result T Error)
    (message code : String) (metadata : List (String × String)) :
    Result T Error :=
  match r with
  | .Ok v => .Ok v
  | .Err e => .Err (Error.wrap (.inr e) code message metadata)

/-- Modelled from the spec: `Result.attempt` invokes `f`; an exception
whose type is among `types` (or any exception when `types` is empty) is
converted to `Err(Error)` via the `exception_to_error` logic with the
default code; a non-matching exception propagates unmodified. -/
def Result.attempt {T : Type} (f : Unit → PyRes T)
    (types : List String) : PyRes (Result T Error) :=
  match f () with
  | .ok v => .ok (.Ok v)
  | .error exc =>
    if types.isEmpty || types.contains exc.excType then
      .ok (.Err (exception_to_error exc "py_exception"))
    else
      .error exc

/-- Modelled from the spec: the `catch` decorator (named `catch_` here
because `catch` is a Lean keyword) — wraps a function so
that a raised exception matching `types` (or any exception when `types`
is empty) becomes `Err(Error)`; non-listed exception types propagate
unchanged. -/
def catch_ {α β : Type} (types : List String) (f : α → PyRes β)
    (x : α) : PyRes (Result β Error) :=
  match f x with
  | .ok v => .ok (.Ok v)
  | .error exc =>
    if types.isEmpty || types.contains exc.excType then
      .ok (.Err (exception_to_error exc "py_exception"))
    else
      .error exc

/-- Modelled from the spec: `err` — the general `Err` constructor
(extra fields defaulted). -/
def err {T : Type} (code message : String) : Result T Error :=
  .Err (Error.new code message none none [] none none [])

/-- Modelled from the spec: `bail` unconditionally constructs
`Err(Error{code, message})` — the early-return idiom. -/
def bail {T : Type} (code message : String) : Result T Error :=
  .Err
    { kind := .Internal
      code := code
      message := message
      metadata := []
      op := none
      path := []
      expected := none
      got := none
      cause := none }

/-- Modelled from the spec: `ensure` — `Ok` if the condition holds,
else `Err(Error{code, message})`. -/
def ensure (condition : Bool) (code message : String) :
    Result Unit Error :=
  if condition then .Ok () else err code message

/-- Modelled from the spec: `Option.map` — applies `f` under `Some`,
short-circuits `None_`, never catches an exception raised by `f`. -/
def Opt.map {T U : Type} (o : Opt T) (f : T → PyRes U) :
    PyRes (Opt U) :=
  match o with
  | .Some v => (f v).map .Some
  | .None_ => .ok .None_

/-- Modelled from the spec: `Option.and_then` — monadic bind on
options; exceptions raised by `f` propagate. -/
def Opt.and_then {T U : Type} (o : Opt T) (f : T → PyRes (Opt U)) :
    PyRes (Opt U) :=
  match o with
  | .Some v => f v
  | .None_ => .ok .None_

/-- Modelled from the spec: `Option.map_try` — applies `f` only under
`Some`, wrapping a raised exception into `Err`; `None_` maps to
`Ok(None_)`. -/
def Opt.map_try {T U : Type} (o : Opt T) (f : T → PyRes U)
    (code message : String) : Result (Opt U) Error :=
  match o with
  | .Some v =>
    match f v with
    | .ok u => .Ok (.Some u)
    | .error exc => .Err (Error.wrap (.inl exc) code message [])
  | .None_ => .Ok .None_

/-- Modelled from the spec: `Option.unwrap` returns the value on
`Some` and fails fatally on `None_`. -/
def Opt.unwrap {T : Type} : Opt T → Fatal T
  | .Some v => .value v
  | .None_ => .fatal "called unwrap on a None value"

def Opt.is_some {T : Type} : Opt T → Bool
  | .Some _ => true
  | .None_ => false

def Opt.is_none {T : Type} : Opt T → Bool
  | .Some _ => false
  | .None_ => true

/-- The string form a cause takes on the wire. -/
def causeToString : CauseVal → String
  | .str s => s
  | .liveExc e => excCauseStr e

/-- The flat mapping produced by `Error.to_dict`: each wire key is
either present with its value or absent. -/
structure ErrorDict where
  kind : Option String
  code : Option String
  message : Option String
  metadata : List (String × String)
  op : Option String
  path : List PathElem
  expected : Option String
  got : Option String
  cause : Option String
  deriving DecidableEq

/-- Modelled from the spec: `to_dict` produces the flat wire mapping
with `kind` and `code` always present. -/
def Error.to_dict (e : Error) : ErrorDict :=
  { kind := some (kindToString e.kind)
    code := some e.code
    message := some e.message
    metadata := e.metadata
    op := e.op
    path := e.path
    expected := e.expected
    got := e.got
    cause := e.cause.map causeToString }

/-- The descriptive construction failures of `from_dict`: the first
missing mandatory field is named (`kind` first), and an unknown kind
string is rejected. -/
inductive DictErr where
  | missingKind
  | unknownKind (s : String)
  | missingCode
  deriving DecidableEq

/-- Modelled from the spec: `from_dict` requires `kind` (failing with
the descriptive error naming it first) and `code`; the remaining fields
are optional; the cause string is stored as a string rendering. -/
def Error.from_dict (d : ErrorDict) : Except DictErr Error :=
  match d.kind with
  | none => .error .missingKind
  | some ks =>
    match kindOfString ks with
    | none => .error (.unknownKind ks)
    | some k =>
      match d.code with
      | none => .error .missingCode
      | some c =>
        .ok
          { kind := k
            code := c
            message := d.message.getD ""
            metadata := d.metadata
            op := d.op
            path := d.path
            expected := d.expected
            got := d.got
            cause := d.cause.map .str }

/-- Modelled from the spec: the do-notation runner (the generator-based
`do` decorator's engine is native and not under `src/`; the spec's
design note prescribes this explicit step-list executor as its model).
Steps run one at a time; an `Ok` step's unwrapped value is threaded to
the next step; the first `Err` terminates execution immediately.  The
second component counts the steps actually executed, so that "no
subsequent step runs and no step is retried" is observable. -/
def runDo {σ E : Type} : List (σ → Result σ E) → σ → Result σ E × Nat
  | [], s => (.Ok s, 0)
  | f :: fs, s =>
    match f s with
    | .Ok v =>
      let r := runDo fs v
      (r.1, r.2 + 1)
    | .Err e => (.Err e, 1)

/-! ## Helper lemmas -/

lemma data_append (a b : String) : (a ++ b).data = a.data ++ b.data := rfl

lemma listPrefix_refl_append (p r : List Char) :
    listPrefix p (p ++ r) = true := by
  induction p with
  | nil => rfl
  | cons a as ih => simp [listPrefix, ih]

lemma hasPrefix_self_append (p r : String) :
    hasPrefix p (p ++ r) = true := by
  simp [hasPrefix, data_append, listPrefix_refl_append]

lemma prefixCode_idem (n c : String) :
    prefixCode n (prefixCode n c) = prefixCode n c := by
  unfold prefixCode
  by_cases h : hasPrefix (n ++ ".") c = true
  · simp [h]
  · simp only [Bool.not_eq_true] at h
    simp only [h, if_false]
    have h2 : hasPrefix (n ++ ".") (n ++ "." ++ c) = true :=
      hasPrefix_self_append (n ++ ".") c
    simp [h2]

lemma kindOfString_kindToString (k : ErrorKind) :
    kindOfString (kindToString k) = some k := by
  cases k <;> rfl

lemma fmtTraceback_ne_empty (exc : Exc) : fmtTraceback exc ≠ "" := by
  intro h
  have h2 : (fmtTraceback exc).data = ("" : String).data :=
    congrArg String.data h
  simp [fmtTraceback, data_append] at h2

/-- `containsStr p s` holds when `p` occurs inside `s`. -/
def containsStr (p s : String) : Prop :=
  ∃ l r, s.data = l ++ (p.data ++ r)

lemma containsStr_code_marker (e : Error) :
    containsStr (codeMarker e.code) (errorRepr e) := by
  refine ⟨("Error(kind=" ++ kindToString e.kind ++ ", ").data,
    (", " ++ messageMarker e.message ++ ")").data, ?_⟩
  simp [errorRepr, data_append, List.append_assoc]

lemma containsStr_message_marker (e : Error) :
    containsStr (messageMarker e.message) (errorRepr e) := by
  refine ⟨("Error(kind=" ++ kindToString e.kind ++ ", "
      ++ codeMarker e.code ++ ", ").data, (")" : String).data, ?_⟩
  simp [errorRepr, data_append, List.append_assoc]

lemma containsStr_exc_msg (exc : Exc) :
    containsStr exc.excMsg (excCauseStr exc) := by
  refine ⟨(exc.excType ++ ": ").data, [], ?_⟩
  simp [excCauseStr, data_append]

/-! ## Witness fixtures -/

/-- A concrete host exception used by the concrete instantiations. -/
def exc0 : Exc := ⟨"ValueError", "boom", "frame\n"⟩

def fRaise : Unit → PyRes Nat := fun _ => .error exc0

def gRaise : Nat → PyRes Nat := fun _ => .error exc0

def gRaiseR : Nat → PyRes (Result Nat Error) := fun _ => .error exc0

def hRaiseO : Nat → PyRes (Opt Nat) := fun _ => .error exc0

def stepOk : Nat → Result Nat String := fun n => .Ok (n + 1)

def stepBad : Nat → Result Nat String := fun _ => .Err "boom"

/-! ## Claims -/

/-- C1: on an `Ok` value, when a caller-supplied function raises a host
exception, `Result.map`, `Result.and_then` and the `Option`
counterparts propagate that exception unmodified to the immediate
caller (the call raises; no `Err` is produced), while the `*_try`
variants convert it into an `Err` carrying the caller-given code. -/
theorem pure_combinators_propagate_host_exceptions {T U : Type}
    (x : T) (f : T → PyRes U) (g : T → PyRes (Result U Error))
    (h : T → PyRes (Opt U)) (exc : Exc) (code message : String)
    (hf : f x = .error exc) (hg : g x = .error exc)
    (hh : h x = .error exc) :
    (Result.Ok (E := Error) x).map f = .error exc
    ∧ (Result.Ok (E := Error) x).and_then g = .error exc
    ∧ (Opt.Some x).map f = .error exc
    ∧ (Opt.Some x).and_then h = .error exc
    ∧ (∃ e, (Result.Ok x).map_try f code message = .Err e
        ∧ e.code = code)
    ∧ (∃ e, (Result.Ok x).and_then_try g code message = .Err e
        ∧ e.code = code)
    ∧ (∃ e, (Opt.Some x).map_try f code message = .Err e
        ∧ e.code = code) := by
  refine ⟨?_, ?_, ?_, ?_, ?_, ?_, ?_⟩
  · simp [Result.map, hf, Except.map]
  · simp [Result.and_then, hg]
  · simp [Opt.map, hf, Except.map]
  · simp [Opt.and_then, hh]
  · exact ⟨Error.wrap (.inl exc) code message [],
      by simp [Result.map_try, hf], rfl⟩
  · exact ⟨Error.wrap (.inl exc) code message [],
      by simp [Result.and_then_try, hg], rfl⟩
  · exact ⟨Error.wrap (.inl exc) code message [],
      by simp [Opt.map_try, hf], rfl⟩

theorem pure_combinators_propagate_host_exceptions_witness :
    (Result.Ok (E := Error) 1).map gRaise = Except.error exc0 :=
  (pure_combinators_propagate_host_exceptions 1 gRaise gRaiseR hRaiseO
    exc0 "c" "m" rfl rfl rfl).1

/-- C2: `Result.attempt f types` returns `Ok` of the value when `f`
returns normally; returns `Err(Error)` when `f` raises an exception
whose type is listed (or whenever `types` is empty); and propagates the
exception unmodified when its type is not among a non-empty `types`. -/
theorem attempt_selective_boundary {T : Type}
    (f : Unit → PyRes T) (v : T) (exc : Exc) (types : List String) :
    (f () = .ok v → Result.attempt f types = .ok (.Ok v))
    ∧ (f () = .error exc → types.contains exc.excType = true →
        Result.attempt f types
          = .ok (.Err (exception_to_error exc "py_exception")))
    ∧ (f () = .error exc → types ≠ [] →
        types.contains exc.excType = false →
        Result.attempt f types = .error exc)
    ∧ (f () = .error exc →
        Result.attempt f []
          = .ok (.Err (exception_to_error exc "py_exception"))) := by
  refine ⟨?_, ?_, ?_, ?_⟩
  · intro hv
    simp [Result.attempt, hv]
  · intro he hc
    have hcond : (types.isEmpty || types.contains exc.excType) = true := by
      rw [hc]; exact Bool.or_true _
    simp only [Result.attempt, he]
    rw [hcond]
    simp
  · intro he hne hc
    have hie : types.isEmpty = false := by
      cases types with
      | nil => exact absurd rfl hne
      | cons a as => rfl
    have hcond :
        (types.isEmpty || types.contains exc.excType) = false := by
      rw [hc, hie]; rfl
    simp only [Result.attempt, he]
    rw [hcond]
    simp
  · intro he
    simp [Result.attempt, he]

theorem attempt_selective_boundary_witness :
    Result.attempt fRaise ["ValueError"]
      = .ok (.Err (exception_to_error exc0 "py_exception")) :=
  (attempt_selective_boundary fRaise 0 exc0 ["ValueError"]).2.1 rfl
    (by decide)

/-- C3: every `Error` built from a host exception — via
`exception_to_error`, `Error.wrap`, `attempt` or `catch` — carries the
exception type name in metadata under `exception` (`cause_exception`
when captured as a wrap's cause) and a non-empty traceback text under
the `py_traceback`-style key, unconditionally. -/
theorem host_exception_capture_mandatory
    (exc : Exc) (code c msg : String) (meta : List (String × String))
    (f : Unit → PyRes Nat) (g : Nat → PyRes Nat)
    (types : List String) (x : Nat) :
    ((exception_to_error exc code).metadata.lookup "exception"
        = some exc.excType)
    ∧ ((exception_to_error exc code).metadata.lookup "py_traceback"
        = some (fmtTraceback exc))
    ∧ fmtTraceback exc ≠ ""
    ∧ ((Error.wrap (.inl exc) c msg meta).metadata.lookup
        "cause_exception" = some exc.excType)
    ∧ ((Error.wrap (.inl exc) c msg meta).metadata.lookup
        "cause_py_traceback" = some (fmtTraceback exc))
    ∧ (f () = .error exc → types.contains exc.excType = true →
        Result.attempt f types
          = .ok (.Err (exception_to_error exc "py_exception")))
    ∧ (g x = .error exc → types.contains exc.excType = true →
        catch_ types g x
          = .ok (.Err (exception_to_error exc "py_exception"))) := by
  refine ⟨rfl, ?_, fmtTraceback_ne_empty exc, rfl, ?_, ?_, ?_⟩
  · simp [exception_to_error, List.lookup]
  · simp [Error.wrap, List.lookup]
  · intro he hc
    have hcond : (types.isEmpty || types.contains exc.excType) = true := by
      rw [hc]; exact Bool.or_true _
    simp only [Result.attempt, he]
    rw [hcond]
    simp
  · intro he hc
    have hcond : (types.isEmpty || types.contains exc.excType) = true := by
      rw [hc]; exact Bool.or_true _
    simp only [catch_, he]
    rw [hcond]
    simp

theorem host_exception_capture_mandatory_witness :
    catch_ ["ValueError"] gRaise 0
      = .ok (.Err (exception_to_error exc0 "py_exception")) :=
  (host_exception_capture_mandatory exc0 "py_exception" "c" "m" []
    fRaise gRaise ["ValueError"] 0).2.2.2.2.2.2 rfl (by decide)

/-- C4: namespace-prefixing of error codes via `map_err_code` — one
application to an `Err` whose code does not already carry the
`n.` prefix yields code `n.c`; a second application of the same
namespace leaves the result unchanged for every input (the prefix is
never duplicated); `Ok` passes through untouched. -/
theorem map_err_code_idempotent_per_namespace {T : Type}
    (n : String) (e : Error) (r : Result T Error) (v : T)
    (h : hasPrefix (n ++ ".") e.code = false) :
    ((Result.Err e : Result T Error).map_err_code n
        = .Err { e with code := n ++ "." ++ e.code })
    ∧ ((r.map_err_code n).map_err_code n = r.map_err_code n)
    ∧ ((Result.Ok v : Result T Error).map_err_code n = .Ok v) := by
  refine ⟨?_, ?_, rfl⟩
  · simp [Result.map_err_code, prefixCode, h]
  · cases r with
    | Ok w => rfl
    | Err e' => simp [Result.map_err_code, prefixCode_idem]

theorem map_err_code_idempotent_per_namespace_witness :
    ((err "custom" "boom" : Result Unit Error).map_err_code
        "pipeline").map_err_code "pipeline"
      = (err "custom" "boom" : Result Unit Error).map_err_code
        "pipeline" :=
  (map_err_code_idempotent_per_namespace "pipeline"
    (Error.new "custom" "boom" none none [] none none [])
    ((err "custom" "boom" : Result Unit Error).map_err_code "pipeline")
    () (by decide)).2.1

/-- C5: for every `Error`, `from_dict (to_dict e)` succeeds and the
reconstructed error has identical kind, code, message and metadata
(nested causes survive only in their string form). -/
theorem error_dict_roundtrip (e : Error) :
    ∃ p, Error.from_dict (Error.to_dict e) = .ok p
      ∧ p.kind = e.kind ∧ p.code = e.code ∧ p.message = e.message
      ∧ p.metadata = e.metadata := by
  refine ⟨Error.mk e.kind e.code e.message e.metadata e.op e.path
    e.expected e.got ((e.cause.map causeToString).map .str),
    ?_, rfl, rfl, rfl, rfl⟩
  simp [Error.to_dict, Error.from_dict, kindOfString_kindToString]

/-- C6: the do-notation runner executes steps in order, threading each
`Ok` step's unwrapped value into the next step; the first step that
yields `Err` terminates the run immediately with that `Err` as the
overall result after executing exactly the steps up to and including
it (nothing after runs, nothing is retried); a sole remaining step's
declared `Result` is the overall result. -/
theorem do_runner_short_circuit {σ E : Type}
    (pre post : List (σ → Result σ E)) (bad f : σ → Result σ E)
    (fs : List (σ → Result σ E)) (s t v : σ) (e : E) :
    (runDo pre s = (.Ok t, pre.length) → bad t = .Err e →
      runDo (pre ++ bad :: post) s = (.Err e, pre.length + 1))
    ∧ (f s = .Ok v →
      runDo (f :: fs) s = ((runDo fs v).1, (runDo fs v).2 + 1))
    ∧ runDo [f] s = (f s, 1) := by
  refine ⟨?_, ?_, ?_⟩
  · intro hpre hbad
    induction pre generalizing s with
    | nil =>
      have hst : s = t := by simpa [runDo] using hpre
      subst hst
      simp [runDo, hbad]
    | cons g gs ih =>
      cases hg : g s with
      | Ok w =>
        simp only [runDo, hg] at hpre
        have h1 : (runDo gs w).1 = .Ok t := by
          have := congrArg Prod.fst hpre
          simpa using this
        have h2 : (runDo gs w).2 = gs.length := by
          have := congrArg Prod.snd hpre
          simpa [List.length_cons] using this
        have hrec : runDo gs w = (.Ok t, gs.length) := by
          rw [← h1, ← h2]
        have hiw := ih w hrec
        simp only [List.cons_append, runDo, hg, List.length_cons,
          List.append_eq]
        rw [hiw]
      | Err e' =>
        simp [runDo, hg] at hpre
  · intro hv
    simp [runDo, hv]
  · cases hf : f s with
    | Ok w => simp [runDo, hf]
    | Err e' => simp [runDo, hf]

theorem do_runner_short_circuit_witness :
    runDo [stepOk, stepBad, stepOk] 0 = (.Err "boom", 2) :=
  (do_runner_short_circuit [stepOk] [stepOk] stepBad stepOk [] 0 1 0
    "boom").1 rfl rfl

/-- C7: `unwrap` returns the contained value on `Ok`/`Some` and fails
fatally on `Err`/`None_` — the outcome is the distinguished
abort/panic-equivalent `Fatal.fatal`, never a returned value. -/
theorem unwrap_fatal_on_err_and_none {T E : Type}
    (v w : T) (e : E) :
    ((Result.Ok v : Result T E).unwrap = .value v)
    ∧ ((Opt.Some v).unwrap = .value v)
    ∧ ((Result.Err e : Result T E).unwrap
        = .fatal "called unwrap on an Err value")
    ∧ ((Opt.None_ : Opt T).unwrap
        = .fatal "called unwrap on a None value")
    ∧ ((Result.Err e : Result T E).unwrap ≠ .value w)
    ∧ ((Opt.None_ : Opt T).unwrap ≠ .value w) := by
  refine ⟨rfl, rfl, rfl, rfl, ?_, ?_⟩
  · simp [Result.unwrap]
  · simp [Opt.unwrap]

theorem unwrap_fatal_on_err_and_none_witness :
    (Result.Err "nope" : Result Nat String).unwrap
      = .fatal "called unwrap on an Err value" :=
  (unwrap_fatal_on_err_and_none 1 2 "nope").2.2.1

/-- C8: `bail code message` and `err code message` construct the very
same `Err` value, hence are observationally indistinguishable:
`is_err` is true for both and `unwrap_err` yields the same `Error`
(same code, same message). -/
theorem bail_equiv_err {T : Type} (code message : String) :
    ((bail code message : Result T Error) = err code message)
    ∧ ((bail code message : Result T Error).is_err = true)
    ∧ ((err code message : Result T Error).is_err = true)
    ∧ ((bail code message : Result T Error).unwrap_err
        = (err code message : Result T Error).unwrap_err)
    ∧ ((bail code message : Result T Error).unwrap_err
        = .value (Error.new code message none none [] none none [])) :=
  ⟨rfl, rfl, rfl, rfl, rfl⟩

/-- C9: whenever an `Error` records a prior error or a host exception
as its cause — `Error.wrap` over either source, `Result.context` on an
`Err`, or `exception_to_error` — the stored cause is the
`CauseVal.str` string rendering of the source (containing the
`code=...`/`message=...` markers, or the exception's message text),
never a live object reference. -/
theorem cause_is_string_rendering
    (base : Error) (exc : Exc) (code message c2 : String)
    (meta : List (String × String)) :
    ((Error.wrap (.inr base) code message meta).cause
        = some (.str (errorRepr base)))
    ∧ containsStr (codeMarker base.code) (errorRepr base)
    ∧ containsStr (messageMarker base.message) (errorRepr base)
    ∧ ((Error.wrap (.inl exc) code message meta).cause
        = some (.str (errorRepr (exception_to_error exc
            "py_exception"))))
    ∧ containsStr (codeMarker "py_exception")
        (errorRepr (exception_to_error exc "py_exception"))
    ∧ ((Result.Err base : Result Unit Error).context message code meta
        = .Err (Error.wrap (.inr base) code message meta))
    ∧ ((exception_to_error exc c2).cause
        = some (.str (excCauseStr exc)))
    ∧ containsStr exc.excMsg (excCauseStr exc) :=
  ⟨rfl, containsStr_code_marker base, containsStr_message_marker base,
    rfl, containsStr_code_marker (exception_to_error exc "py_exception"),
    rfl, rfl, containsStr_exc_msg exc⟩

/-- C10: the `unwrap_err` accessor on an `Err` result returns the
contained `Error` payload unchanged; on an error built by `err` the
returned payload carries exactly the code and message it was
constructed with. -/
theorem unwrap_err_returns_error_payload {T : Type}
    (e : Error) (c m : String) :
    ((Result.Err e : Result T Error).unwrap_err = .value e)
    ∧ ((err c m : Result T Error).unwrap_err
        = .value (Error.new c m none none [] none none []))
    ∧ ((Error.new c m none none [] none none []).code = c)
    ∧ ((Error.new c m none none [] none none []).message = m) :=
  ⟨rfl, rfl, rfl, rfl⟩

end Pyropust
